import Mathlib

/-!
Shallow embedding of the `zero` live-reload development server
(`src/server.rs`, with `src/lib.rs` / `src/ws.rs` holding earlier revisions
of the same functions).  Machine integers are modelled as `Nat` reduced
`% 2^32` where the Rust code works on `u32` words.
-/

namespace Zero

/-- Truncation to 32 bits, the implicit wrap-around of `u32` arithmetic. -/
def w32 (n : Nat) : Nat := n % 2 ^ 32

/-- Left rotation of a 32-bit word by `b` bits (`u32::rotate_left`). -/
def rotl (b n : Nat) : Nat := w32 (n * 2 ^ b) + n / 2 ^ (32 - b)

/-- ASCII bytes of a string (`str::as_bytes`); every string fed to the hash
in this program is ASCII, where code point = byte. -/
def strBytes (s : String) : List Nat := s.toList.map Char.toNat

/-- Big-endian byte expansion of `n` into `k` bytes. -/
def beBytes (k n : Nat) : List Nat :=
  (List.range k).map (fun i => n / 2 ^ (8 * (k - 1 - i)) % 256)

/-- SHA-1 padding: `0x80`, zeros to 56 mod 64, then the 8-byte big-endian
bit length (the preprocessing the `sha1` crate performs on `finalize`). -/
def sha1pad (msg : List Nat) : List Nat :=
  msg ++ [128] ++ List.replicate ((119 - msg.length % 64) % 64) 0
      ++ beBytes 8 (msg.length * 8)

/-- Split a byte list into 64-byte blocks (fuel = length, each step drops ≥ 1). -/
def chunksAux : Nat → List Nat → List (List Nat)
  | 0, _ => []
  | _ + 1, [] => []
  | fuel + 1, l => l.take 64 :: chunksAux fuel (l.drop 64)

def chunks64 (l : List Nat) : List (List Nat) := chunksAux l.length l

/-- Pack bytes into big-endian 32-bit words. -/
def bytesToWords : List Nat → List Nat
  | b0 :: b1 :: b2 :: b3 :: rest =>
      (((b0 * 256 + b1) * 256 + b2) * 256 + b3) :: bytesToWords rest
  | _ => []

/-- SHA-1 message-schedule extension: append `n` further words, each
`rotl 1 (w[t-3] xor w[t-8] xor w[t-14] xor w[t-16])`. -/
def extendW : Nat → List Nat → List Nat
  | 0, acc => acc
  | n + 1, acc =>
      let l := acc.length
      let wv := rotl 1 ((acc.getD (l - 3) 0) ^^^ (acc.getD (l - 8) 0)
                        ^^^ (acc.getD (l - 14) 0) ^^^ (acc.getD (l - 16) 0))
      extendW n (acc ++ [wv])

/-- SHA-1 round function `f_t`. -/
def sha1f (t b c d : Nat) : Nat :=
  if t < 20 then (b &&& c) ||| ((b ^^^ (2 ^ 32 - 1)) &&& d)
  else if t < 40 then b ^^^ c ^^^ d
  else if t < 60 then (b &&& c) ||| (b &&& d) ||| (c &&& d)
  else b ^^^ c ^^^ d

/-- SHA-1 round constant `K_t`. -/
def sha1k (t : Nat) : Nat :=
  if t < 20 then 0x5A827999
  else if t < 40 then 0x6ED9EBA1
  else if t < 60 then 0x8F1BBCDC
  else 0xCA62C1D6

structure Sha1St where
  a : Nat
  b : Nat
  c : Nat
  d : Nat
  e : Nat
deriving DecidableEq

/-- Process one 64-byte block into the running hash state. -/
def sha1block (h : Sha1St) (block : List Nat) : Sha1St :=
  let ws := extendW 64 (bytesToWords block)
  let st := (List.range 80).foldl
    (fun (st : Sha1St) t =>
      let temp := w32 (rotl 5 st.a + sha1f t st.b st.c st.d + st.e
                       + sha1k t + ws.getD t 0)
      ⟨temp, st.a, rotl 30 st.b, st.c, st.d⟩) h
  ⟨w32 (h.a + st.a), w32 (h.b + st.b), w32 (h.c + st.c),
   w32 (h.d + st.d), w32 (h.e + st.e)⟩

/-- SHA-1 of a byte list, as the 20-byte big-endian digest
(`Sha1::new` / `update` / `finalize` of the `sha1` crate). -/
def sha1 (msg : List Nat) : List Nat :=
  let init : Sha1St := ⟨0x67452301, 0xEFCDAB89, 0x98BADCFE, 0x10325476, 0xC3D2E1F0⟩
  let fin := (chunks64 (sha1pad msg)).foldl sha1block init
  beBytes 4 fin.a ++ beBytes 4 fin.b ++ beBytes 4 fin.c
    ++ beBytes 4 fin.d ++ beBytes 4 fin.e

/-- The standard base64 alphabet used by `base64::engine::general_purpose::STANDARD`. -/
def base64Chars : List Char :=
  "ABCDEFGHIJKLMNOPQRSTUVWXYZabcdefghijklmnopqrstuvwxyz0123456789+/".toList

def b64char (n : Nat) : Char := base64Chars.getD n (Char.ofNat 65)

/-- Standard base64 with `=` padding (`BASE64.encode`). -/
def base64encode : List Nat → List Char
  | [] => []
  | [b0] => [b64char (b0 / 4), b64char (b0 % 4 * 16), '=', '=']
  | [b0, b1] => [b64char (b0 / 4), b64char (b0 % 4 * 16 + b1 / 16),
                 b64char (b1 % 16 * 4), '=']
  | b0 :: b1 :: b2 :: rest =>
      b64char (b0 / 4) :: b64char (b0 % 4 * 16 + b1 / 16)
        :: b64char (b1 % 16 * 4 + b2 / 64) :: b64char (b2 % 64)
        :: base64encode rest

/-- The `WEBSOCKET_GUID` constant of `server.rs` / `ws.rs`. -/
def WEBSOCKET_GUID : String := "258EAFA5-E914-47DA-95CA-C5AB0DC85B11"

/-- Model of `ZeroServer::compute_websocket_accept`: SHA-1 over `key` then the GUID
(one running hash, equal to hashing the concatenation), base64-encoded. -/
def compute_websocket_accept (key : String) : String :=
  String.mk (base64encode (sha1 (strBytes key ++ strBytes WEBSOCKET_GUID)))

/-- The accept value as §4.3 of the spec words it:
base64(SHA-1(key ‖ "258EAFA5-E914-47DA-95CA-C5AB0DC85B11")). -/
def websocketAcceptSpec (key : String) : String :=
  String.mk (base64encode (sha1 (strBytes key
    ++ strBytes "258EAFA5-E914-47DA-95CA-C5AB0DC85B11")))

/-! ## File serving (`server.rs` `serve` / `serve_file` / `not_found`)

Paths are modelled as strings; request paths are ordinary absolute HTTP
paths (no `..` traversal and no trailing-slash components, which `Path`
would canonicalise differently).  The filesystem is a map from path to
file contents (`none` = `File::open` / `read_to_string` fails). -/

/-- The `LIVE_RELOAD_SCRIPT` constant of `server.rs` (byte-for-byte, braces and
apostrophes written as hex escapes). -/
def LIVE_RELOAD_SCRIPT : String :=
  "\n<script>\n(function() \x7b\n    const ws = new WebSocket(\x27ws://\x27 + window.location.host + \x27/__live_reload\x27);\n    ws.onmessage = () => \x7b\n        console.log(\x27reloading\x27);\n        window.location.reload();\n    \x7d;\n    ws.onclose = () => \x7b\n        console.log(\x27disconnected\x27);\n        setTimeout(() => window.location.reload(), 1000);\n    \x7d;\n\x7d)();\n</script>\n"

/-- Model of `path.trim_start_matches('/')`: drop all leading slashes. -/
def trimLeadingSlashes (s : String) : String :=
  String.mk (s.toList.dropWhile (· == '/'))

/-- Model of `PathBuf::join` / `push` with a relative component (empty component
leaves the path unchanged up to a trailing separator no claim observes). -/
def joinPath (a b : String) : String :=
  if b == "" then a else a ++ "/" ++ b

/-- File name of a path: the part after the last `/`. -/
def lastComponentCL (cs : List Char) : List Char :=
  (cs.reverse.takeWhile (· != '/')).reverse

/-- Model of `Path::extension` on a file name: `none` when there is no `.`, or when
the only `.` is the leading one of a dotfile; else the part after the last `.`. -/
def fileExtension (f : List Char) : Option (List Char) :=
  match f with
  | [] => none
  | c :: rest =>
      let body := if c == '.' then rest else f
      if body.contains '.' then some ((body.reverse.takeWhile (· != '.')).reverse)
      else none

/-- Model of `Path::extension` composed with `to_str` (all paths here are UTF-8). -/
def pathExtension (p : String) : Option String :=
  (fileExtension (lastComponentCL p.toList)).map String.mk

/-- Model of `PathBuf::set_extension e`: strip the current extension of the file
name (with its dot) and append `.` ++ `e`. -/
def setExtension (p : String) (e : String) : String :=
  let cs := p.toList
  let f := lastComponentCL cs
  let stem := match fileExtension f with
    | none => f
    | some ext => f.take (f.length - ext.length - 1)
  String.mk (cs.take (cs.length - f.length) ++ stem ++ '.' :: e.toList)

/-- The extension → MIME table of `serve_file`. -/
def contentTypeFor (ext : Option String) : String :=
  match ext with
  | some "html" => "text/html"
  | some "css" => "text/css"
  | some "js" => "application/javascript"
  | some "png" => "image/png"
  | some "jpg" => "image/jpeg"
  | some "jpeg" => "image/jpeg"
  | some "gif" => "image/gif"
  | some "svg" => "image/svg+xml"
  | some "json" => "application/json"
  | some "wasm" => "application/wasm"
  | _ => "application/octet-stream"

structure HttpResponseM where
  status : Nat
  headers : List (String × String)
  body : String
deriving DecidableEq

/-- Model of `ZeroServer::not_found`: 404 with the literal body, no other headers. -/
def not_found : HttpResponseM :=
  ⟨404, [], "404 Not Found"⟩

/-- Model of `ZeroServer::serve_file`: open the file (`none` on failure), infer the
content type from the extension; when injecting into `text/html`, return
the full text with the script appended, else the file bytes as-is. -/
def serve_file (fs : String → Option String) (path : String) (inject : Bool) :
    Option HttpResponseM :=
  match fs path with
  | none => none
  | some contents =>
      let ct := contentTypeFor (pathExtension path)
      if inject && ct == "text/html" then
        some ⟨200, [("Content-Type", ct)], contents ++ LIVE_RELOAD_SCRIPT⟩
      else
        some ⟨200, [("Content-Type", ct)], contents⟩

/-- An incoming request as `serve` inspects it: URI path, the `Upgrade`
header and the `Sec-WebSocket-Key` header (each `none` when absent or not
valid ASCII, matching `.and_then(|v| v.to_str().ok())`). -/
structure RequestM where
  path : String
  upgradeHeader : Option String
  secWebSocketKey : Option String
deriving DecidableEq

/-- Model of `ZeroServer::handle_websocket`: key defaults to `""` when the header is
missing or unreadable; always answers 101 with the computed accept. -/
def handle_websocket (req : RequestM) : HttpResponseM :=
  let key := req.secWebSocketKey.getD ""
  let accept := compute_websocket_accept key
  ⟨101, [("Upgrade", "websocket"), ("Connection", "Upgrade"),
         ("Sec-WebSocket-Accept", accept)], ""⟩

/-- Whether `serve` treats the request as a WebSocket handshake. -/
def isHandshake (req : RequestM) : Bool :=
  req.path == "/__live_reload" && req.upgradeHeader == some "websocket"

/-- The page-path resolution of `serve` (lines 217–222 of `server.rs`):
`root/pages/<trimmed>`, then `index.html` for directories and the root
path, and a default `.html` extension.  `dirs` is the set of filesystem
directories (`page_path.is_dir()`). -/
def pageBasePath (root : String) (path : String) : String :=
  joinPath (joinPath root "pages") (trimLeadingSlashes path)

def resolvePagePath (root : String) (dirs : List String) (path : String) : String :=
  let pp := pageBasePath root path
  if dirs.contains pp || path == "/" then joinPath pp "index.html"
  else if (pathExtension pp).isNone then setExtension pp "html"
  else pp

/-- Model of `path.starts_with("/static/")`, as a structural test on the
characters. -/
def startsWithStatic (p : String) : Bool :=
  "/static/".toList.isPrefixOf p.toList

/-- The path `serve` hands to `serve_file` for a non-handshake request. -/
def resolveRequestPath (root : String) (dirs : List String) (path : String) : String :=
  if startsWithStatic path then joinPath root (trimLeadingSlashes path)
  else resolvePagePath root dirs path

/-- Model of `ZeroServer::serve`: handshake requests go to `handle_websocket`;
`/static/` paths are served without injection; everything else resolves
under `pages` and is served with `inject = true`; any `serve_file` failure
becomes `not_found`. -/
def serve (root : String) (dirs : List String) (fs : String → Option String)
    (req : RequestM) : HttpResponseM :=
  if isHandshake req then handle_websocket req
  else if startsWithStatic req.path then
    (serve_file fs (joinPath root (trimLeadingSlashes req.path)) false).getD not_found
  else
    (serve_file fs (resolvePagePath root dirs req.path) true).getD not_found

/-- Model of `is_livereload` of `lib.rs`: `env::var("PROD").map_or(true, |v| v == "dev")`,
as a function of the `PROD` environment variable. -/
def is_livereload (prodEnv : Option String) : Bool :=
  match prodEnv with
  | none => true
  | some v => v == "dev"

/-! ## The per-session WebSocket loop (`handle_ws_connection`, `server.rs`)

The `tokio::select!` loop is modelled as a step function over the sequence
of events the loop observes: inbound frames (with receive errors and end
of stream) and broadcast receipts.  The outcome of a `send` the loop
performs in reaction to an event is part of the event (the transport's
behaviour is an input to the program). -/

inductive Message
  | text (s : String)
  | binary (b : List Nat)
  | ping (b : List Nat)
  | pong (b : List Nat)
  | close
  | frameRaw
deriving DecidableEq

inductive WsEvent
  /-- Inbound stream ended (`ws_rx.next()` returned `None`). -/
  | streamEnd
  /-- Receive error (`ws_rx.next()` returned `Some(Err(e))`). -/
  | recvErr (e : String)
  /-- Inbound frame (`ws_rx.next()` returned `Some(Ok(m))`); `sendOk` is whether
  a send the loop performs in reaction (the Pong) would succeed. -/
  | frame (m : Message) (sendOk : Bool)
  /-- Broadcast receipt (`reload_rx.recv()` fired); `sendOk` is whether the
  `reload` send succeeds. -/
  | reload (sendOk : Bool)
deriving DecidableEq

/-- One arm of the `select!` loop: the frames actually delivered to the
peer, and whether the loop exits (`break`, or `?` propagating a send
error out of the function). -/
def stepEvent : WsEvent → List Message × Bool
  | .streamEnd => ([], true)
  | .recvErr _ => ([], true)
  | .frame .close _ => ([], true)
  | .frame (.ping d) sendOk =>
      if sendOk then ([.pong d], false) else ([], true)
  | .frame _ _ => ([], false)
  | .reload sendOk =>
      if sendOk then ([.text "reload"], false) else ([], true)

/-- The whole loop: frames sent over a sequence of observed events,
stopping at the first exiting event. -/
def sessionRun : List WsEvent → List Message
  | [] => []
  | e :: rest =>
      if (stepEvent e).2 then (stepEvent e).1
      else (stepEvent e).1 ++ sessionRun rest

/-- Session states of spec section 4.4: `Running` while the loop iterates,
`Closed` once it has exited. -/
inductive SessionState
  | running
  | closed
deriving DecidableEq

/-- One event against a session: a closed session's loop has exited, so it
reacts to nothing and sends nothing. -/
def stepState (s : SessionState) (e : WsEvent) : SessionState × List Message :=
  match s with
  | .closed => (.closed, [])
  | .running =>
      (if (stepEvent e).2 then .closed else .running, (stepEvent e).1)

/-- Final state after a sequence of events. -/
def runState (s : SessionState) : List WsEvent → SessionState
  | [] => s
  | e :: rest => runState (stepState s e).1 rest

/-- Events that make the loop exit without sending anything. -/
def isTermEvent : WsEvent → Bool
  | .streamEnd => true
  | .recvErr _ => true
  | .frame .close _ => true
  | _ => false

/-- Non-Close inbound frames the loop ignores (`_ => {}` arm). -/
def isIgnoredFrame : Message → Bool
  | .text _ => true
  | .binary _ => true
  | .pong _ => true
  | .frameRaw => true
  | _ => false

/-! ## Broadcast fan-out (`reload_tx` / per-session `subscribe`)

Each session owns a private receiver; a published `ChangeEvent` is seen by
every subscribed session independently.  Delivery of one event to `N`
sessions is each session taking one `reload` step on its own state. -/

def broadcastDeliver (sessions : List SessionState) :
    List (SessionState × List Message) :=
  sessions.map (fun s => stepState s (.reload true))

/-! ## The filesystem watcher (`ZeroServer::watch`, `server.rs` 229–260)

`watch` spawns a thread and returns; watcher creation and the
`watcher.watch` call happen inside the thread, each followed by
`.unwrap()`.  A panic in a spawned thread terminates that thread only:
the process (and `run`'s accept loop) continues. -/

structure WatchEnv where
  /-- Outcome of `notify::recommended_watcher(tx)`. -/
  watcherCreate : Except String Unit
  /-- Outcome of `watcher.watch(&watch_path, RecursiveMode::Recursive)`. -/
  watchPathCall : Except String Unit

structure WatchOutcome where
  /-- What `watch()` returns to its caller (`run`). -/
  callerResult : Except String Unit
  /-- Whether the spawned watcher thread dies by panic. -/
  threadPanicked : Bool
  /-- Whether the server process keeps running and serving requests. -/
  serverContinues : Bool

def watchModel (env : WatchEnv) : WatchOutcome :=
  { callerResult := Except.ok ()
    threadPanicked :=
      match env.watcherCreate with
      | .error _ => true
      | .ok _ =>
          match env.watchPathCall with
          | .error _ => true
          | .ok _ => false
    serverContinues := true }

/-! ## Helper lemmas -/

/-- A session whose loop has exited stays exited whatever else happens. -/
theorem runState_closed (evts : List WsEvent) :
    runState SessionState.closed evts = SessionState.closed := by
  induction evts with
  | nil => rfl
  | cons e rest ih => simpa [runState, stepState] using ih

/-- Any text frame an arm of the loop delivers carries the payload `reload`. -/
theorem stepEvent_text (e : WsEvent) (s : String)
    (h : Message.text s ∈ (stepEvent e).1) : s = "reload" := by
  cases e with
  | streamEnd => simp [stepEvent] at h
  | recvErr msg => simp [stepEvent] at h
  | frame m sendOk => cases m <;> cases sendOk <;> simp [stepEvent] at h
  | reload sendOk =>
      cases sendOk with
      | false => simp [stepEvent] at h
      | true => simpa [stepEvent] using h

/-- Any text frame the whole loop ever delivers carries the payload `reload`. -/
theorem sessionRun_text_reload (evts : List WsEvent) (s : String)
    (h : Message.text s ∈ sessionRun evts) : s = "reload" := by
  induction evts with
  | nil => simp [sessionRun] at h
  | cons e rest ih =>
      rw [sessionRun] at h
      by_cases hbr : (stepEvent e).2
      · rw [if_pos hbr] at h
        exact stepEvent_text e s h
      · rw [if_neg hbr] at h
        rcases List.mem_append.mp h with hl | hr
        · exact stepEvent_text e s hl
        · exact ih hr

/-! ## Claim theorems -/

/-- C5: a Close frame, a receive error, or the end of the inbound stream
moves the session to the terminal `Closed` state: the loop exits and no
frame of any kind is sent on that transport from that point on, whatever
events would follow. -/
theorem C5_close_terminates (e : WsEvent) (rest : List WsEvent)
    (h : isTermEvent e = true) :
    sessionRun (e :: rest) = [] ∧
    runState SessionState.running (e :: rest) = SessionState.closed := by
  have hstep : stepEvent e = ([], true) := by
    cases e with
    | streamEnd => rfl
    | recvErr msg => rfl
    | frame m sendOk => cases m <;> simp_all [isTermEvent, stepEvent]
    | reload sendOk => simp [isTermEvent] at h
  constructor
  · rw [sessionRun, hstep]
    simp
  · rw [runState, stepState, hstep]
    simpa using runState_closed rest

theorem C5_close_terminates_witness :
    sessionRun [WsEvent.frame Message.close true, WsEvent.reload true] = [] :=
  (C5_close_terminates (WsEvent.frame Message.close true) [WsEvent.reload true] rfl).1

/-- C6: an inbound Ping with payload `d` (whose answering send succeeds)
makes the running session deliver exactly one Pong with the identical
payload, before anything else, and leaves it `Running`; every other
non-Close inbound frame type is ignored and also leaves it `Running`. -/
theorem C6_ping_pong (d : List Nat) (m : Message) (b : Bool) (rest : List WsEvent)
    (hm : isIgnoredFrame m = true) :
    stepState SessionState.running (WsEvent.frame (Message.ping d) true)
      = (SessionState.running, [Message.pong d]) ∧
    sessionRun (WsEvent.frame (Message.ping d) true :: rest)
      = Message.pong d :: sessionRun rest ∧
    stepState SessionState.running (WsEvent.frame m b)
      = (SessionState.running, []) ∧
    sessionRun (WsEvent.frame m b :: rest) = sessionRun rest := by
  have hstep : stepEvent (WsEvent.frame m b) = ([], false) := by
    cases m <;> simp_all [isIgnoredFrame, stepEvent]
  refine ⟨rfl, by rw [sessionRun]; rfl, ?_, ?_⟩
  · rw [stepState, hstep]
    simp
  · rw [sessionRun, hstep]
    simp

theorem C6_ping_pong_witness :
    stepState SessionState.running (WsEvent.frame (Message.ping [1, 2]) true)
      = (SessionState.running, [Message.pong [1, 2]]) :=
  (C6_ping_pong [1, 2] (Message.text "x") false [] rfl).1

/-- C7: a broadcast receipt makes the running session send one text frame
with the literal payload `reload` (and every text frame the session ever
sends carries exactly that payload); a failing `reload` send moves the
session to `Closed` with nothing delivered. -/
theorem C7_reload_payload (rest evts : List WsEvent) (s : String)
    (h : Message.text s ∈ sessionRun evts) :
    stepState SessionState.running (WsEvent.reload true)
      = (SessionState.running, [Message.text "reload"]) ∧
    sessionRun (WsEvent.reload true :: rest)
      = Message.text "reload" :: sessionRun rest ∧
    stepState SessionState.running (WsEvent.reload false)
      = (SessionState.closed, []) ∧
    s = "reload" :=
  ⟨rfl, by rw [sessionRun]; rfl, rfl, sessionRun_text_reload evts s h⟩

theorem C7_reload_payload_witness :
    stepState SessionState.running (WsEvent.reload true)
      = (SessionState.running, [Message.text "reload"]) :=
  (C7_reload_payload [] [WsEvent.reload true] "reload" (by decide)).1

/-- C3: delivering one published ChangeEvent to `N` connected sessions
yields one result per session; every still-running session receives
exactly one `reload` text frame and stays running; and each session's
delivery is a function of that session alone (entry `i` of the fan-out is
the image of session `i`, independent of every other session). -/
theorem C3_fanout (sessions : List SessionState)
    (hall : ∀ s ∈ sessions, s = SessionState.running) :
    (broadcastDeliver sessions).length = sessions.length ∧
    (∀ r ∈ broadcastDeliver sessions,
      r.2 = [Message.text "reload"] ∧ r.1 = SessionState.running) ∧
    (∀ i : Nat, (broadcastDeliver sessions)[i]? =
      (sessions[i]?).map (fun s => stepState s (WsEvent.reload true))) := by
  refine ⟨by simp [broadcastDeliver], ?_, ?_⟩
  · intro r hr
    simp only [broadcastDeliver, List.mem_map] at hr
    obtain ⟨s, hs, rfl⟩ := hr
    rw [hall s hs]
    exact ⟨rfl, rfl⟩
  · intro i
    simp [broadcastDeliver]

theorem C3_fanout_witness :
    (broadcastDeliver [SessionState.running, SessionState.running]).length = 2 :=
  (C3_fanout [SessionState.running, SessionState.running] (by simp)).1

/-- C4: evaluation of the `watch` model at a watcher-creation failure.
The spec calls such a failure startup-fatal, but `watch` returns
`Ok(())` to its caller unconditionally (the `unwrap` runs inside the
spawned thread), the panic kills only the watcher thread, and the server
process keeps serving requests. -/
theorem C4_watch_failure_not_fatal :
    watchModel ⟨Except.error "failed to create watcher", Except.ok ()⟩
      = ⟨Except.ok (), true, true⟩ ∧
    watchModel ⟨Except.ok (), Except.error "failed to watch path"⟩
      = ⟨Except.ok (), true, true⟩ :=
  ⟨rfl, rfl⟩

/-- C8: on a non-handshake request whose path resolution / file open
fails, `serve` answers exactly `not_found`: status 404, body the literal
`404 Not Found` — in particular no bootstrap script is present, the body
being exactly that literal. -/
theorem C8_not_found_on_failure (root : String) (dirs : List String)
    (fs : String → Option String) (req : RequestM)
    (hws : isHandshake req = false)
    (hfs : fs (resolveRequestPath root dirs req.path) = none) :
    serve root dirs fs req = not_found ∧
    (serve root dirs fs req).status = 404 ∧
    (serve root dirs fs req).body = "404 Not Found" := by
  have hserve : serve root dirs fs req = not_found := by
    rw [serve, if_neg (by simp [hws])]
    by_cases hst : startsWithStatic req.path
    · rw [if_pos hst]
      rw [resolveRequestPath, if_pos hst] at hfs
      simp [serve_file, hfs]
    · rw [if_neg hst]
      rw [resolveRequestPath, if_neg hst] at hfs
      simp [serve_file, hfs]
  exact ⟨hserve, by rw [hserve]; rfl, by rw [hserve]; rfl⟩

theorem C8_not_found_on_failure_witness :
    serve "r" [] (fun _ => none) ⟨"/nope", none, none⟩ = not_found :=
  (C8_not_found_on_failure "r" [] (fun _ => none) ⟨"/nope", none, none⟩
    (by decide) (by decide)).1

/-- C10: a request to `/__live_reload` with `Upgrade: websocket` but
without a readable `Sec-WebSocket-Key` header is not rejected: `serve`
answers 101 with the accept value computed over the empty-string key. -/
theorem C10_default_key_handshake (root : String) (dirs : List String)
    (fs : String → Option String) (req : RequestM)
    (hpath : req.path = "/__live_reload")
    (hupg : req.upgradeHeader = some "websocket")
    (hkey : req.secWebSocketKey = none) :
    serve root dirs fs req =
      ⟨101, [("Upgrade", "websocket"), ("Connection", "Upgrade"),
             ("Sec-WebSocket-Accept", compute_websocket_accept "")], ""⟩ := by
  have hh : isHandshake req = true := by simp [isHandshake, hpath, hupg]
  rw [serve, if_pos hh, handle_websocket, hkey]
  rfl

set_option maxRecDepth 100000 in
theorem C10_default_key_handshake_witness :
    serve "r" [] (fun _ => none) ⟨"/__live_reload", some "websocket", none⟩
      = ⟨101, [("Upgrade", "websocket"), ("Connection", "Upgrade"),
               ("Sec-WebSocket-Accept", "Kfh9QIsMVZcl6xEPYxPHzW8SZ8w=")], ""⟩ := by
  rw [C10_default_key_handshake "r" [] (fun _ => none)
        ⟨"/__live_reload", some "websocket", none⟩ rfl rfl rfl]
  decide

/-- A one-page filesystem: only `site/pages/index.html` exists. -/
def fsIndexHtml : String → Option String :=
  fun p => if p == "site/pages/index.html" then some "<h1>hi</h1>" else none

set_option maxRecDepth 100000 in
/-- C2 counterexample: with `PROD=production` the live-reload flag
`is_livereload` is off, yet an existing HTML page is still served with the
bootstrap script appended — `serve` passes `inject = true` for every page
path and never consults the flag. -/
theorem C2_flag_counterexample :
    is_livereload (some "production") = false ∧
    (serve "site" [] fsIndexHtml ⟨"/index.html", none, none⟩).body
      = "<h1>hi</h1>" ++ LIVE_RELOAD_SCRIPT := by
  exact ⟨rfl, by decide⟩

/-- C2 (amended): for every page request (non-handshake, non-`/static/`)
whose resolved path opens successfully, the bootstrap script is appended
exactly when the content type is `text/html` — unconditionally on the
live-reload flag, which the server never reads; non-HTML content is
served without the snippet. -/
theorem C2_injection_unconditional (root : String) (dirs : List String)
    (fs : String → Option String) (req : RequestM) (contents : String)
    (hws : isHandshake req = false)
    (hstat : startsWithStatic req.path = false)
    (hfs : fs (resolvePagePath root dirs req.path) = some contents) :
    (contentTypeFor (pathExtension (resolvePagePath root dirs req.path)) = "text/html" →
      (serve root dirs fs req).body = contents ++ LIVE_RELOAD_SCRIPT) ∧
    (contentTypeFor (pathExtension (resolvePagePath root dirs req.path)) ≠ "text/html" →
      (serve root dirs fs req).body = contents) := by
  have hserve : serve root dirs fs req
      = (serve_file fs (resolvePagePath root dirs req.path) true).getD not_found := by
    rw [serve, if_neg (by simp [hws]), if_neg (by simp [hstat])]
  constructor
  · intro hct
    rw [hserve]
    simp [serve_file, hfs, hct]
  · intro hct
    have hbeq : (contentTypeFor (pathExtension (resolvePagePath root dirs req.path))
        == "text/html") = false := by
      simpa using hct
    rw [hserve]
    simp [serve_file, hfs, hbeq]

set_option maxRecDepth 100000 in
theorem C2_injection_unconditional_witness :
    (serve "site" [] fsIndexHtml ⟨"/index.html", none, none⟩).body
      = "<h1>hi</h1>" ++ LIVE_RELOAD_SCRIPT :=
  (C2_injection_unconditional "site" [] fsIndexHtml ⟨"/index.html", none, none⟩
    "<h1>hi</h1>" (by decide) (by decide) (by decide)).1 (by decide)

/-- Taking everything but a suffix and re-appending the suffix is the
identity. -/
theorem take_append_of_append (A B cs : List Char) (hsplit : A ++ B = cs) :
    cs.take (cs.length - B.length) ++ B = cs := by
  subst hsplit
  rw [List.length_append, Nat.add_sub_cancel, List.take_left A B]

/-- A path splits as everything up to the last `/` followed by its last
component. -/
theorem take_append_lastComponentCL (cs : List Char) :
    cs.take (cs.length - (lastComponentCL cs).length) ++ lastComponentCL cs = cs :=
  take_append_of_append ((cs.reverse.dropWhile (· != '/')).reverse)
    (lastComponentCL cs) cs (by
      rw [lastComponentCL, ← List.reverse_append, List.takeWhile_append_dropWhile,
        List.reverse_reverse])

/-- Setting the extension of a path that has none appends `.` ++ `e`. -/
theorem setExtension_of_no_extension (p e : String)
    (h : pathExtension p = none) :
    setExtension p e = p ++ "." ++ e := by
  have hfe : fileExtension (lastComponentCL p.toList) = none := by
    simpa [pathExtension] using h
  cases p with
  | mk data =>
      cases e with
      | mk edata =>
          simp only [setExtension, hfe]
          rw [take_append_lastComponentCL]
          show String.mk _ = String.mk _
          simp

/-- Joining `index.html` onto a path appends `/index.html`. -/
theorem joinPath_index (a : String) :
    joinPath a "index.html" = a ++ "/index.html" := by
  cases a with
  | mk d =>
      show String.mk _ = String.mk _
      simp

/-- Appending `"."` then `"html"` is appending `".html"`. -/
theorem append_dot_html (a : String) : a ++ "." ++ "html" = a ++ ".html" := by
  cases a with
  | mk d =>
      show String.mk _ = String.mk _
      simp

/-- Case analysis of the page resolver (lines 217–222 of `server.rs`):
a base naming a directory — and the root path `/` — resolves to
`index.html` inside it, and an extensionless base gets `.html` appended. -/
theorem resolvePagePath_cases (root : String) (dirs : List String) (path : String) :
    ((dirs.contains (pageBasePath root path) || path == "/") = true →
      resolvePagePath root dirs path = pageBasePath root path ++ "/index.html") ∧
    ((dirs.contains (pageBasePath root path) || path == "/") = false →
     pathExtension (pageBasePath root path) = none →
      resolvePagePath root dirs path = pageBasePath root path ++ ".html") := by
  constructor
  · intro h
    simp only [resolvePagePath, h, if_true]
    exact joinPath_index (pageBasePath root path)
  · intro h hext
    have hnone : (pathExtension (pageBasePath root path)).isNone = true := by
      rw [hext]; rfl
    simp only [resolvePagePath, h, Bool.false_eq_true, if_false, hnone, if_true]
    rw [setExtension_of_no_extension (pageBasePath root path) "html" hext]
    exact append_dot_html (pageBasePath root path)

/-- A filesystem containing only `r/static/app.html`. -/
def fsStaticApp : String → Option String :=
  fun p => if p == "r/static/app.html" then some "X" else none

/-- C9 counterexample: `GET /static/app` is a non-handshake request whose
path has no extension, yet `serve` looks it up at `r/static/app` with no
`.html` appended — the only file, at the `.html`-appended location the
claim prescribes, is not found and the server answers 404. The `/static/`
branch (lines 209–215 of `server.rs`) applies neither the `index.html`
convention nor the default extension. -/
theorem C9_static_counterexample :
    isHandshake ⟨"/static/app", none, none⟩ = false ∧
    pathExtension "/static/app" = none ∧
    resolveRequestPath "r" [] "/static/app" = "r/static/app" ∧
    serve "r" [] fsStaticApp ⟨"/static/app", none, none⟩ = not_found :=
  ⟨by decide, by decide, by decide, by decide⟩

/-- C9 (amended): for every non-handshake request, the lookup path is:
for a `/static/` path, the trimmed path joined onto the root verbatim,
with neither convention applied; for every other path, the page
resolution under `root/pages`, where a base naming a directory — and the
root path `/` — resolves to `index.html` inside it, and an extensionless
base gets `.html` appended before lookup. -/
theorem C9_request_resolution (root : String) (dirs : List String) (path : String) :
    (startsWithStatic path = true →
      resolveRequestPath root dirs path = joinPath root (trimLeadingSlashes path)) ∧
    (startsWithStatic path = false →
      resolveRequestPath root dirs path = resolvePagePath root dirs path ∧
      ((dirs.contains (pageBasePath root path) || path == "/") = true →
        resolvePagePath root dirs path = pageBasePath root path ++ "/index.html") ∧
      ((dirs.contains (pageBasePath root path) || path == "/") = false →
       pathExtension (pageBasePath root path) = none →
        resolvePagePath root dirs path = pageBasePath root path ++ ".html")) := by
  constructor
  · intro h
    simp only [resolveRequestPath, h, if_true]
  · intro h
    refine ⟨?_, resolvePagePath_cases root dirs path⟩
    simp only [resolveRequestPath, h, Bool.false_eq_true, if_false]

theorem C9_request_resolution_witness :
    resolveRequestPath "r" [] "/static/logo.png" = "r/static/logo.png" ∧
    resolvePagePath "r" ["r/pages/blog"] "/blog" = "r/pages/blog/index.html" := by
  constructor
  · rw [(C9_request_resolution "r" [] "/static/logo.png").1 (by decide)]
    decide
  · rw [((C9_request_resolution "r" ["r/pages/blog"] "/blog").2 (by decide)).2.1 (by decide)]
    decide

set_option maxRecDepth 1000000 in
/-- C1: the WebSocket accept value is base64(SHA-1(key ‖ GUID)) exactly as
the spec words it, and on the RFC 6455 vector key
`dGhlIHNhbXBsZSBub25jZQ==` it is `s3pPLMBiTxaQ9kYGzzhZRbK+xOo=`. -/
theorem C1_accept_rfc6455 :
    (∀ key : String, compute_websocket_accept key = websocketAcceptSpec key) ∧
    compute_websocket_accept "dGhlIHNhbXBsZSBub25jZQ==" = "s3pPLMBiTxaQ9kYGzzhZRbK+xOo=" :=
  ⟨fun _ => rfl, by decide⟩

end Zero
